import Mathlib

/-!
Shallow embedding of `src/prefect/futures.py` (the future-handle lifecycle and
the structural resolvers) together with proofs of the specification's claims.

Modelling conventions:
* A Python `UUID` is an opaque identifier, embedded as `Nat`.
* A `State[R]` payload (`state.data`, a data document object) is embedded as
  `Nat`; `state.data` is `Option Nat` and Python truthiness of `state.data`
  is `Option.isSome` (a present data document object is always truthy).
* Exceptions are embedded as `Except Err`.
* Mutation of `self` in `wait` is embedded as explicit state passing: `wait`
  returns the updated future alongside its return value.
* Calls to the two external collaborators (the status store's
  `client.read_task_run` and the execution backend's `executor.wait`) are
  recorded in a trace of `CollabCall` events, so that "performs no
  status-store query / no backend call" claims are statable.
-/

/-- State types of the status schema consumed by `futures.py`
(`prefect.orion.schemas.states.State`): the spec's
{Pending, Running, Completed, Failed, Cancelled}. -/
inductive StateType where
  | pending
  | running
  | completed
  | failed
  | cancelled
deriving DecidableEq, Repr

/-- A run status: a tag plus an optional attached payload (`state.data`). -/
structure State where
  stateType : StateType
  data : Option Nat
deriving DecidableEq, Repr

/-- Embeds `State.is_completed()`: the type tag is COMPLETED. -/
def State.is_completed (s : State) : Bool :=
  s.stateType == .completed

/-- Embeds `State.is_failed()`: the type tag is FAILED. -/
def State.is_failed (s : State) : Bool :=
  s.stateType == .failed

/-- The record the status store returns for a run id; `futures.py` only
reads its `state` field. -/
structure TaskRun where
  state : State
deriving DecidableEq, Repr

/-- Errors raised by the embedded code. -/
inductive Err where
  /-- `RuntimeError("Future has no associated task run in the server.")`,
  the spec's `NotFound`. -/
  | runtimeNotFound
  /-- An error carrying a Failed/Cancelled status's payload, raised when a
  result is extracted from such a status. -/
  | upstreamFailure (payload : Option Nat)
  /-- Result extraction found no attached payload. -/
  | missingResult
deriving DecidableEq, Repr

/-- One observable call to an external collaborator. -/
inductive CollabCall where
  /-- `await self._client.read_task_run(run_id)` — a status-store query. -/
  | storeQuery (run_id : Nat)
  /-- `await self._executor.wait(self, timeout)` — the execution backend's
  blocking-wait primitive. -/
  | backendWait (run_id : Nat) (timeout : Option Nat)
deriving DecidableEq, Repr

/-- Embeds `PrefectFuture`.  The `client` field is the status-store
reference (`self._client`), embedded as its `read_task_run` behaviour; the
`executor` field is the execution-backend reference (`self._executor`),
embedded as its `wait(self, timeout)` behaviour (given the future's run id
and the timeout, the backend either produces a status or, when the timeout
elapses first, nothing).  `objId` embeds Python object identity: distinct
instances have distinct `objId`, and the class overrides no `__eq__`, so
Python `==` on futures is `objId` comparison. -/
structure PrefectFuture where
  run_id : Nat
  client : Nat → Option TaskRun
  final_state : Option State
  exception : Option Nat
  executor : Nat → Option Nat → Option State
  objId : Nat

/-- Embeds `PrefectFuture.__init__`: `run_id`, `client` and `executor` come
from the caller, `_final_state` from the testing-only parameter (default
`None`), and `_exception` is initialised to `None`. -/
def PrefectFuture.mk_init (run_id : Nat) (client : Nat → Option TaskRun)
    (executor : Nat → Option Nat → Option State) (objId : Nat)
    (final_state : Option State := none) : PrefectFuture :=
  { run_id := run_id
    client := client
    final_state := final_state
    exception := none
    executor := executor
    objId := objId }

/-- Embeds `PrefectFuture.get_state`: read the task run from the client by
`run_id`; if the store has none, raise
`RuntimeError("Future has no associated task run in the server.")`;
otherwise return its state.  The method assigns no attribute, so no updated
future is returned.  The second component is the collaborator-call trace. -/
def PrefectFuture.get_state (f : PrefectFuture) :
    Except Err State × List CollabCall :=
  match f.client f.run_id with
  | none => (.error .runtimeNotFound, [.storeQuery f.run_id])
  | some task_run => (.ok task_run.state, [.storeQuery f.run_id])

/-- Embeds `PrefectFuture.wait`:

```
if self._final_state:
    return self._final_state
state = await self.get_state()
if (state.is_completed() or state.is_failed()) and state.data:
    return state
self._final_state = await self._executor.wait(self, timeout)
return self._final_state
```

The result is the returned value (`Optional[State]`, or a raised error
propagated from `get_state`), the future after the call (Python mutates
`self` in place), and the collaborator-call trace. -/
def PrefectFuture.wait (f : PrefectFuture) (timeout : Option Nat) :
    Except Err (Option State) × PrefectFuture × List CollabCall :=
  match f.final_state with
  | some s => (.ok (some s), f, [])
  | none =>
    match f.get_state with
    | (.error e, tr) => (.error e, f, tr)
    | (.ok state, tr) =>
      if (state.is_completed || state.is_failed) && state.data.isSome then
        (.ok (some state), f, tr)
      else
        let r := f.executor f.run_id timeout
        (.ok r, { f with final_state := r },
          tr ++ [.backendWait f.run_id timeout])

/-- Embeds `PrefectFuture.__hash__`: `hash(self.run_id)`.  The Python hash
of a UUID is a fixed injective function of the UUID; it is embedded as the
id itself. -/
def PrefectFuture.pyHash (f : PrefectFuture) : Nat :=
  f.run_id

/-- Python `==` on `PrefectFuture`: the class defines `__hash__` but no
`__eq__`, so the default object-identity comparison applies. -/
def PrefectFuture.pyEq (a b : PrefectFuture) : Bool :=
  a.objId == b.objId

/-- Modelled from the spec: the generic container walk
`prefect.utilities.collections.visit_collection` is not under `src/`; §4.2
gives its traversal contract over "scalars, ordered sequences, mappings
(key→value, keys preserved, insertion order preserved where the container
type orders), sets, and fixed-schema records/structs (field-by-field)",
with unrecognized types passed through.  `PyVal` is the universe of such
values; keys and field names are embedded as `Nat`, a `record` carries an
opaque schema tag, and `pyState` embeds a `State` value appearing inside a
structure (as the status-resolver produces). -/
inductive PyVal where
  | scalar (n : Nat)
  | opaqueObj (n : Nat)
  | pyState (s : State)
  | future (f : PrefectFuture)
  | list (xs : List PyVal)
  | pySet (xs : List PyVal)
  | dict (entries : List (Nat × PyVal))
  | record (schema : Nat) (fields : List (Nat × PyVal))

mutual

/-- Modelled from the spec: `visit_collection(expr, visit_fn, return_data=True)`
(not under `src/`), per §4.2: "Any value that is a Future Handle is replaced
by applying the chosen transformation; everything else is returned
unchanged, recursing into nested containers/records", rebuilding the same
concrete container kind, and "Types not recognized as
containers/records/handles are returned unmodified".  A raised error from
the transformation propagates out of the walk. -/
def visit_collection (vf : PrefectFuture → Except Err PyVal) :
    PyVal → Except Err PyVal
  | .future f => vf f
  | .list xs =>
    match visitList vf xs with
    | .error e => .error e
    | .ok ys => .ok (.list ys)
  | .pySet xs =>
    match visitList vf xs with
    | .error e => .error e
    | .ok ys => .ok (.pySet ys)
  | .dict es =>
    match visitEntries vf es with
    | .error e => .error e
    | .ok gs => .ok (.dict gs)
  | .record schema fs =>
    match visitEntries vf fs with
    | .error e => .error e
    | .ok gs => .ok (.record schema gs)
  | v => .ok v

/-- Elementwise walk of a sequence/set's members, preserving order. -/
def visitList (vf : PrefectFuture → Except Err PyVal) :
    List PyVal → Except Err (List PyVal)
  | [] => .ok []
  | x :: xs =>
    match visit_collection vf x with
    | .error e => .error e
    | .ok y =>
      match visitList vf xs with
      | .error e => .error e
      | .ok ys => .ok (y :: ys)

/-- Entrywise walk of a mapping's (or record's) entries: keys (field names)
are preserved, values are visited. -/
def visitEntries (vf : PrefectFuture → Except Err PyVal) :
    List (Nat × PyVal) → Except Err (List (Nat × PyVal))
  | [] => .ok []
  | (k, v) :: es =>
    match visit_collection vf v with
    | .error e => .error e
    | .ok w =>
      match visitEntries vf es with
      | .error e => .error e
      | .ok gs => .ok ((k, w) :: gs)

end

mutual

/-- A value is future-free when no `PrefectFuture` occurs anywhere in it. -/
def futureFree : PyVal → Bool
  | .future _ => false
  | .list xs => futureFreeList xs
  | .pySet xs => futureFreeList xs
  | .dict es => futureFreeEntries es
  | .record _ fs => futureFreeEntries fs
  | _ => true

/-- All members of a list are future-free. -/
def futureFreeList : List PyVal → Bool
  | [] => true
  | x :: xs => futureFree x && futureFreeList xs

/-- All entry values of a mapping/record are future-free. -/
def futureFreeEntries : List (Nat × PyVal) → Bool
  | [] => true
  | (_, v) :: es => futureFree v && futureFreeEntries es

end

/-- Modelled from the spec: `prefect.get_result` is not under `src/`; §4.2:
resolution-to-values extracts "the payload from the terminal status (fails
with the status's carried error if the status is Failed/Cancelled)".  The
argument is `wait()`'s return value. -/
def get_result : Option State → Except Err Nat
  | none => .error .missingResult
  | some s =>
    match s.stateType with
    | .failed => .error (.upstreamFailure s.data)
    | .cancelled => .error (.upstreamFailure s.data)
    | _ =>
      match s.data with
      | some v => .ok v
      | none => .error .missingResult

/-- Embeds the `visit_fn` of `resolve_futures_to_data`:
`await prefect.get_result(await expr.wait())` on a future, identity
otherwise (the non-future branch is the traversal's pass-through). -/
def dataVisitFn (f : PrefectFuture) : Except Err PyVal :=
  match (f.wait none).1 with
  | .error e => .error e
  | .ok st =>
    match get_result st with
    | .error e => .error e
    | .ok v => .ok (.scalar v)

/-- Embeds `resolve_futures_to_data`: walk the collection, replacing every
`PrefectFuture` by the data of its awaited state. -/
def resolve_futures_to_data (expr : PyVal) : Except Err PyVal :=
  visit_collection dataVisitFn expr

/-- Embeds the `visit_fn` of `resolve_futures_to_states`:
`await expr.wait()` on a future, identity otherwise. -/
def statesVisitFn (f : PrefectFuture) : Except Err PyVal :=
  match (f.wait none).1 with
  | .error e => .error e
  | .ok none => .error .missingResult
  | .ok (some s) => .ok (.pyState s)

/-- Embeds `resolve_futures_to_states`: walk the collection, replacing
every `PrefectFuture` by its awaited state. -/
def resolve_futures_to_states (expr : PyVal) : Except Err PyVal :=
  visit_collection statesVisitFn expr

mutual

/-- The walk is the identity (and raises nothing) on a future-free value,
whatever the leaf transformation is. -/
theorem visit_collection_futureFree (vf : PrefectFuture → Except Err PyVal) :
    ∀ v : PyVal, futureFree v = true → visit_collection vf v = .ok v
  | .scalar _, _ => rfl
  | .opaqueObj _, _ => rfl
  | .pyState _, _ => rfl
  | .future _, h => by simp [futureFree] at h
  | .list xs, h => by
      have hl := visitList_futureFree vf xs (by simpa [futureFree] using h)
      simp [visit_collection, hl]
  | .pySet xs, h => by
      have hl := visitList_futureFree vf xs (by simpa [futureFree] using h)
      simp [visit_collection, hl]
  | .dict es, h => by
      have hl := visitEntries_futureFree vf es (by simpa [futureFree] using h)
      simp [visit_collection, hl]
  | .record schema fs, h => by
      have hl := visitEntries_futureFree vf fs (by simpa [futureFree] using h)
      simp [visit_collection, hl]

/-- Elementwise identity on future-free lists. -/
theorem visitList_futureFree (vf : PrefectFuture → Except Err PyVal) :
    ∀ xs : List PyVal, futureFreeList xs = true → visitList vf xs = .ok xs
  | [], _ => rfl
  | x :: xs, h => by
      have hx : futureFree x = true := by
        have := h; simp [futureFreeList] at this; exact this.1
      have hxs : futureFreeList xs = true := by
        have := h; simp [futureFreeList] at this; exact this.2
      have h1 := visit_collection_futureFree vf x hx
      have h2 := visitList_futureFree vf xs hxs
      simp [visitList, h1, h2]

/-- Entrywise identity on future-free entry lists. -/
theorem visitEntries_futureFree (vf : PrefectFuture → Except Err PyVal) :
    ∀ es : List (Nat × PyVal), futureFreeEntries es = true →
      visitEntries vf es = .ok es
  | [], _ => rfl
  | (k, v) :: es, h => by
      have hv : futureFree v = true := by
        have := h; simp [futureFreeEntries] at this; exact this.1
      have hes : futureFreeEntries es = true := by
        have := h; simp [futureFreeEntries] at this; exact this.2
      have h1 := visit_collection_futureFree vf v hv
      have h2 := visitEntries_futureFree vf es hes
      simp [visitEntries, h1, h2]

end

/-- Walking a list whose future-free elements come first propagates an
error raised while walking the rest. -/
theorem visitList_append_futureFree_error (vf : PrefectFuture → Except Err PyVal)
    (pre rest : List PyVal) (e : Err) (h : futureFreeList pre = true)
    (hr : visitList vf rest = .error e) :
    visitList vf (pre ++ rest) = .error e := by
  induction pre with
  | nil => simpa using hr
  | cons x xs ih =>
      have hx : futureFree x = true := by
        have := h; simp [futureFreeList] at this; exact this.1
      have hxs : futureFreeList xs = true := by
        have := h; simp [futureFreeList] at this; exact this.2
      have h1 := visit_collection_futureFree vf x hx
      simp [visitList, h1, ih hxs]

/-- Walking a list whose future-free elements come first keeps those
elements unchanged before whatever the rest of the walk produces. -/
theorem visitList_append_futureFree_ok (vf : PrefectFuture → Except Err PyVal)
    (pre rest ys : List PyVal) (h : futureFreeList pre = true)
    (hr : visitList vf rest = .ok ys) :
    visitList vf (pre ++ rest) = .ok (pre ++ ys) := by
  induction pre with
  | nil => simpa using hr
  | cons x xs ih =>
      have hx : futureFree x = true := by
        have := h; simp [futureFreeList] at this; exact this.1
      have hxs : futureFreeList xs = true := by
        have := h; simp [futureFreeList] at this; exact this.2
      have h1 := visit_collection_futureFree vf x hx
      simp [visitList, h1, ih hxs]

/-- Re-writing the cache slot with the value it already holds leaves the
future unchanged. -/
theorem update_final_state_self (f : PrefectFuture) (r : Option State)
    (h : f.final_state = r) : { f with final_state := r } = f := by
  cases f
  simp_all

/-- One `wait` call leaves every field except the cache slot unchanged, and
touches the cache slot only when it was empty. -/
theorem wait_step_frame (f : PrefectFuture) (t : Option Nat) :
    ((f.wait t).2.1.run_id = f.run_id ∧
     (f.wait t).2.1.client = f.client ∧
     (f.wait t).2.1.executor = f.executor ∧
     (f.wait t).2.1.exception = f.exception ∧
     (f.wait t).2.1.objId = f.objId) ∧
    ((f.wait t).2.1.final_state = f.final_state ∨ f.final_state = none) := by
  unfold PrefectFuture.wait
  cases hfs : f.final_state with
  | some s => simp [hfs]
  | none =>
    cases hg : f.get_state with
    | mk r tr =>
      cases r with
      | error e => simp [hfs, hg]
      | ok state =>
        by_cases hc :
            ((state.is_completed || state.is_failed) && state.data.isSome) = true
        · simp [hfs, hg, hc]
        · simp [hfs, hg, hc]

mutual

/-- Output/input relation of value-resolution: the output has the same
concrete shape and container/record kind as the input, every non-future
position is unchanged in place, and exactly the future positions are
replaced by the payload that value-resolution produces for them. -/
inductive Resolved : PyVal → PyVal → Prop where
  | scalar (n : Nat) : Resolved (.scalar n) (.scalar n)
  | opaqueObj (n : Nat) : Resolved (.opaqueObj n) (.opaqueObj n)
  | pyState (s : State) : Resolved (.pyState s) (.pyState s)
  | future (f : PrefectFuture) (st : Option State) (v : Nat)
      (hw : (f.wait none).1 = .ok st) (hr : get_result st = .ok v) :
      Resolved (.future f) (.scalar v)
  | list {xs ys : List PyVal} :
      ResolvedList xs ys → Resolved (.list xs) (.list ys)
  | pySet {xs ys : List PyVal} :
      ResolvedList xs ys → Resolved (.pySet xs) (.pySet ys)
  | dict {es gs : List (Nat × PyVal)} :
      ResolvedEntries es gs → Resolved (.dict es) (.dict gs)
  | record (schema : Nat) {es gs : List (Nat × PyVal)} :
      ResolvedEntries es gs → Resolved (.record schema es) (.record schema gs)

/-- Elementwise `Resolved` over sequence/set members (lengths equal, order
preserved). -/
inductive ResolvedList : List PyVal → List PyVal → Prop where
  | nil : ResolvedList [] []
  | cons {x y : PyVal} {xs ys : List PyVal} :
      Resolved x y → ResolvedList xs ys → ResolvedList (x :: xs) (y :: ys)

/-- Entrywise `Resolved` over mapping/record entries (keys and their order
preserved, values related). -/
inductive ResolvedEntries :
    List (Nat × PyVal) → List (Nat × PyVal) → Prop where
  | nil : ResolvedEntries [] []
  | cons (k : Nat) {v w : PyVal} {es gs : List (Nat × PyVal)} :
      Resolved v w → ResolvedEntries es gs →
      ResolvedEntries ((k, v) :: es) ((k, w) :: gs)

end

mutual

/-- A successful value-resolution walk relates input and output by
`Resolved`. -/
theorem visitData_resolved :
    ∀ v out : PyVal, visit_collection dataVisitFn v = .ok out → Resolved v out
  | .scalar n, out, h => by
      simp [visit_collection] at h
      subst h
      exact .scalar n
  | .opaqueObj n, out, h => by
      simp [visit_collection] at h
      subst h
      exact .opaqueObj n
  | .pyState s, out, h => by
      simp [visit_collection] at h
      subst h
      exact .pyState s
  | .future f, out, h => by
      have h' : dataVisitFn f = .ok out := h
      unfold dataVisitFn at h'
      revert h'
      cases hw : (f.wait none).1 with
      | error e => intro h'; simp at h'
      | ok st =>
        dsimp only
        cases hr : get_result st with
        | error e => intro h'; simp at h'
        | ok v =>
          intro h'
          simp at h'
          subst h'
          exact Resolved.future f st v hw hr
  | .list xs, out, h => by
      revert h
      simp only [visit_collection]
      cases hl : visitList dataVisitFn xs with
      | error e => intro h; simp at h
      | ok ys =>
        intro h
        simp at h
        subst h
        exact Resolved.list (visitListData_resolved xs ys hl)
  | .pySet xs, out, h => by
      revert h
      simp only [visit_collection]
      cases hl : visitList dataVisitFn xs with
      | error e => intro h; simp at h
      | ok ys =>
        intro h
        simp at h
        subst h
        exact Resolved.pySet (visitListData_resolved xs ys hl)
  | .dict es, out, h => by
      revert h
      simp only [visit_collection]
      cases hl : visitEntries dataVisitFn es with
      | error e => intro h; simp at h
      | ok gs =>
        intro h
        simp at h
        subst h
        exact Resolved.dict (visitEntriesData_resolved es gs hl)
  | .record schema fs, out, h => by
      revert h
      simp only [visit_collection]
      cases hl : visitEntries dataVisitFn fs with
      | error e => intro h; simp at h
      | ok gs =>
        intro h
        simp at h
        subst h
        exact Resolved.record schema (visitEntriesData_resolved fs gs hl)

/-- Elementwise version of `visitData_resolved`. -/
theorem visitListData_resolved :
    ∀ xs ys : List PyVal, visitList dataVisitFn xs = .ok ys → ResolvedList xs ys
  | [], ys, h => by
      simp [visitList] at h
      subst h
      exact .nil
  | x :: xs, ys, h => by
      revert h
      simp only [visitList]
      cases hx : visit_collection dataVisitFn x with
      | error e => intro h; simp at h
      | ok y =>
        cases hxs : visitList dataVisitFn xs with
        | error e => intro h; simp at h
        | ok ys' =>
          intro h
          simp at h
          subst h
          exact ResolvedList.cons (visitData_resolved x y hx)
            (visitListData_resolved xs ys' hxs)

/-- Entrywise version of `visitData_resolved`. -/
theorem visitEntriesData_resolved :
    ∀ es gs : List (Nat × PyVal), visitEntries dataVisitFn es = .ok gs →
      ResolvedEntries es gs
  | [], gs, h => by
      simp [visitEntries] at h
      subst h
      exact .nil
  | (k, v) :: es, gs, h => by
      revert h
      simp only [visitEntries]
      cases hv : visit_collection dataVisitFn v with
      | error e => intro h; simp at h
      | ok w =>
        cases hes : visitEntries dataVisitFn es with
        | error e => intro h; simp at h
        | ok gs' =>
          intro h
          simp at h
          subst h
          exact ResolvedEntries.cons k (visitData_resolved v w hv)
            (visitEntriesData_resolved es gs' hes)

end

/-- One public handle operation of the claims' frame condition. -/
inductive FutOp where
  | wait (timeout : Option Nat)
  | getState
deriving DecidableEq, Repr

/-- Runs a sequence of `wait`/`get_state` calls against a future, threading
the future `wait` hands back; `get_state` assigns no attribute, so it hands
the future through unchanged. -/
def runOps (f : PrefectFuture) : List FutOp → PrefectFuture
  | [] => f
  | .wait t :: ops => runOps (f.wait t).2.1 ops
  | .getState :: ops => runOps f ops

/-- A fixture status store: run 7 is Completed with payload 42. -/
def storeCompleted : Nat → Option TaskRun :=
  fun i => if i = 7 then some ⟨⟨.completed, some 42⟩⟩ else none

/-- A fixture status store: run 7 is Failed with payload 13. -/
def storeFailed : Nat → Option TaskRun :=
  fun i => if i = 7 then some ⟨⟨.failed, some 13⟩⟩ else none

/-- A fixture status store: run 7 is Cancelled with payload 9. -/
def storeCancelled : Nat → Option TaskRun :=
  fun i => if i = 7 then some ⟨⟨.cancelled, some 9⟩⟩ else none

/-- A fixture status store: run 7 is Running with no payload. -/
def storeRunning : Nat → Option TaskRun :=
  fun i => if i = 7 then some ⟨⟨.running, none⟩⟩ else none

/-- A fixture status store that knows no run at all. -/
def storeEmpty : Nat → Option TaskRun :=
  fun _ => none

/-- A fixture backend whose blocking wait never produces a status (every
timeout elapses first). -/
def backendNever : Nat → Option Nat → Option State :=
  fun _ _ => none

/-- A fixture backend that resolves run 7 to Completed with payload 42 when
called with no timeout, and lets any finite timeout elapse first. -/
def backendLate : Nat → Option Nat → Option State :=
  fun i t =>
    match t with
    | none => if i = 7 then some ⟨.completed, some 42⟩ else none
    | some _ => none

/-- C1: once `cached_terminal_state` (`_final_state`) is populated, every
subsequent `wait` call, with any timeout argument, returns that same cached
value, leaves the handle unchanged, and performs no status-store query and
no execution-backend call (the collaborator trace is empty). -/
theorem C1_cached_wait_returns_cache (f : PrefectFuture) (s : State)
    (h : f.final_state = some s) (t : Option Nat) :
    f.wait t = (.ok (some s), f, []) := by
  unfold PrefectFuture.wait
  rw [h]

/-- Witness for C1 at a concrete populated handle and finite timeout. -/
theorem C1_witness :
    (PrefectFuture.mk_init 7 storeRunning backendNever 1
        (some ⟨.completed, some 42⟩)).wait (some 5) =
      (.ok (some ⟨.completed, some 42⟩),
        PrefectFuture.mk_init 7 storeRunning backendNever 1
          (some ⟨.completed, some 42⟩), []) :=
  C1_cached_wait_returns_cache _ _ rfl (some 5)

/-- An empty-cache handle over a store whose run 7 is Completed with
payload 42. -/
def futC2a : PrefectFuture := PrefectFuture.mk_init 7 storeCompleted backendNever 1

/-- An empty-cache handle over a store whose run 7 is Cancelled with
payload 9. -/
def futC2b : PrefectFuture := PrefectFuture.mk_init 7 storeCancelled backendNever 2

/-- C2 counterexample: (a) a Completed status with a payload is returned by
`wait` but NOT cached — the handle's `_final_state` is still empty
afterwards; (b) a Cancelled status with a payload, although terminal, is
not short-circuited: `wait` delegates to the execution backend's blocking
wait (the trace contains a backend call). -/
theorem C2_counterexample :
    ((futC2a.wait none).1 = .ok (some ⟨.completed, some 42⟩) ∧
      (futC2a.wait none).2.1.final_state = none) ∧
    ((storeCancelled 7) = some ⟨⟨.cancelled, some 9⟩⟩ ∧
      (futC2b.wait none).2.2 = [.storeQuery 7, .backendWait 7 none]) :=
  ⟨⟨rfl, rfl⟩, ⟨rfl, rfl⟩⟩

/-- C2 amended: for an empty-cache handle, if the single status-store query
returns a status that is Completed or Failed (not Cancelled) and carries a
usable payload, `wait` returns it without delegating to the execution
backend's blocking wait — but it does NOT cache it: the handle comes back
unchanged and the trace holds exactly the one store query. -/
theorem C2_amended_terminal_short_circuit (f : PrefectFuture) (tr : TaskRun)
    (t : Option Nat) (hc : f.final_state = none)
    (hs : f.client f.run_id = some tr)
    (hterm : tr.state.is_completed = true ∨ tr.state.is_failed = true)
    (hd : tr.state.data.isSome = true) :
    f.wait t = (.ok (some tr.state), f, [.storeQuery f.run_id]) := by
  unfold PrefectFuture.wait PrefectFuture.get_state
  rw [hc, hs]
  rcases hterm with h | h <;> simp [h, hd]

/-- Witness for amended C2 at a concrete Failed-with-payload store. -/
theorem C2_witness :
    (PrefectFuture.mk_init 7 storeFailed backendNever 3).wait none =
      (.ok (some ⟨.failed, some 13⟩),
        PrefectFuture.mk_init 7 storeFailed backendNever 3,
        [.storeQuery 7]) :=
  C2_amended_terminal_short_circuit _ ⟨⟨.failed, some 13⟩⟩ none rfl rfl
    (Or.inr rfl) rfl

/-- A handle on run 5 with object identity 1. -/
def futC3a : PrefectFuture := PrefectFuture.mk_init 5 storeEmpty backendNever 1

/-- A second, distinct handle on the same run 5 (object identity 2). -/
def futC3b : PrefectFuture := PrefectFuture.mk_init 5 storeEmpty backendNever 2

/-- C3 counterexample: two distinct instances constructed with the same
run id hash identically but do NOT compare equal — the class overrides
`__hash__` only, so Python's default object-identity `__eq__` applies. -/
theorem C3_counterexample :
    futC3a.run_id = futC3b.run_id ∧ futC3a.objId ≠ futC3b.objId ∧
    futC3a.pyHash = futC3b.pyHash ∧ futC3a.pyEq futC3b = false :=
  ⟨rfl, by decide, rfl, rfl⟩

/-- C3 amended: two handles constructed with the same identifier have
identical hash values, but distinct instances (distinct object identity)
do not compare equal, since no `__eq__` is defined. -/
theorem C3_amended_hash_only (f g : PrefectFuture) (h : f.run_id = g.run_id) :
    f.pyHash = g.pyHash ∧ (f.objId ≠ g.objId → f.pyEq g = false) := by
  constructor
  · simpa [PrefectFuture.pyHash] using h
  · intro hne
    simpa [PrefectFuture.pyEq] using hne

/-- Witness for amended C3 at the two concrete handles. -/
theorem C3_witness :
    futC3a.pyHash = futC3b.pyHash ∧
    (futC3a.objId ≠ futC3b.objId → futC3a.pyEq futC3b = false) :=
  C3_amended_hash_only futC3a futC3b rfl

/-- C4: for an empty-cache handle whose work is not terminal (store reports
Pending/Running), a `wait` whose finite timeout elapses first (the backend
produces nothing) returns the empty value — not an error, not a terminal
status — and hands the handle back unresolved (cache still empty), so that
a later `wait` whose backend call does produce a terminal status returns
and caches it. -/
theorem C4_timeout_leaves_unresolved (f : PrefectFuture) (tr : TaskRun)
    (t : Nat) (hc : f.final_state = none) (hs : f.client f.run_id = some tr)
    (hnt : tr.state.stateType = .pending ∨ tr.state.stateType = .running)
    (hto : f.executor f.run_id (some t) = none) :
    f.wait (some t) =
      (.ok none, f, [.storeQuery f.run_id, .backendWait f.run_id (some t)]) ∧
    ∀ (t' : Option Nat) (s' : State), f.executor f.run_id t' = some s' →
      f.wait t' = (.ok (some s'), { f with final_state := some s' },
        [.storeQuery f.run_id, .backendWait f.run_id t']) := by
  have hguard : ((tr.state.is_completed || tr.state.is_failed) &&
      tr.state.data.isSome) = false := by
    rcases hnt with h | h <;> simp [State.is_completed, State.is_failed, h]
  constructor
  · unfold PrefectFuture.wait PrefectFuture.get_state
    rw [hc, hs]
    simp [hguard, hto, update_final_state_self f none hc]
  · intro t' s' he
    unfold PrefectFuture.wait PrefectFuture.get_state
    rw [hc, hs]
    simp [hguard, he]

/-- An empty-cache handle on a Running run whose backend resolves only when
called without a timeout. -/
def futC4 : PrefectFuture := PrefectFuture.mk_init 7 storeRunning backendLate 4

/-- Witness for C4: the timed-out call returns the empty value and leaves
the handle reusable; the untimed call then resolves and caches. -/
theorem C4_witness :
    (futC4.wait (some 3) =
      (.ok none, futC4, [.storeQuery 7, .backendWait 7 (some 3)])) ∧
    (futC4.wait none =
      (.ok (some ⟨.completed, some 42⟩),
        PrefectFuture.mk_init 7 storeRunning backendLate 4
          (some ⟨.completed, some 42⟩),
        [.storeQuery 7, .backendWait 7 none])) :=
  ⟨(C4_timeout_leaves_unresolved futC4 ⟨⟨.running, none⟩⟩ 3 rfl rfl
      (Or.inr rfl) rfl).1,
    (C4_timeout_leaves_unresolved futC4 ⟨⟨.running, none⟩⟩ 3 rfl rfl
      (Or.inr rfl) rfl).2 none ⟨.completed, some 42⟩ rfl⟩

/-- C5: on an empty-cache handle whose identifier the status store does not
recognize, every `wait` call raises the NotFound error
(`RuntimeError("Future has no associated task run in the server.")`) after
exactly one store query, caches nothing (the handle comes back unchanged),
and a repeated call on the handle it hands back fails identically. -/
theorem C5_notfound_every_time (f : PrefectFuture) (t t' : Option Nat)
    (hc : f.final_state = none) (hs : f.client f.run_id = none) :
    f.wait t = (.error .runtimeNotFound, f, [.storeQuery f.run_id]) ∧
    ((f.wait t).2.1).wait t' =
      (.error .runtimeNotFound, f, [.storeQuery f.run_id]) := by
  have key : ∀ u : Option Nat,
      f.wait u = (.error .runtimeNotFound, f, [.storeQuery f.run_id]) := by
    intro u
    unfold PrefectFuture.wait PrefectFuture.get_state
    rw [hc, hs]
  refine ⟨key t, ?_⟩
  rw [key t]
  exact key t'

/-- An empty-cache handle whose identifier no store record matches. -/
def futC5 : PrefectFuture := PrefectFuture.mk_init 9 storeEmpty backendNever 5

/-- Witness for C5 at the concrete unknown-id handle. -/
theorem C5_witness :
    futC5.wait (some 2) =
      (.error .runtimeNotFound, futC5, [.storeQuery 9]) ∧
    ((futC5.wait (some 2)).2.1).wait none =
      (.error .runtimeNotFound, futC5, [.storeQuery 9]) :=
  C5_notfound_every_time futC5 (some 2) none rfl rfl

/-- C6: `get_state` never reads the cache (its result is unchanged under
any cache contents) and never consults the execution backend (its result is
unchanged under any backend, and its trace is exactly one store query); it
returns whatever status the store reports for the id, and raises the
NotFound error when the store has no run for it.  It returns no updated
handle because the method assigns no attribute. -/
theorem C6_get_state_contract (f : PrefectFuture) :
    (∀ c : Option State,
      ({ f with final_state := c } : PrefectFuture).get_state = f.get_state) ∧
    (∀ e : Nat → Option Nat → Option State,
      ({ f with executor := e } : PrefectFuture).get_state = f.get_state) ∧
    (f.get_state).2 = [.storeQuery f.run_id] ∧
    (f.client f.run_id = none → (f.get_state).1 = .error .runtimeNotFound) ∧
    (∀ tr : TaskRun, f.client f.run_id = some tr →
      (f.get_state).1 = .ok tr.state) := by
  refine ⟨fun c => rfl, fun e => rfl, ?_, ?_, ?_⟩
  · unfold PrefectFuture.get_state
    cases f.client f.run_id <;> rfl
  · intro h
    unfold PrefectFuture.get_state
    rw [h]
  · intro tr h
    unfold PrefectFuture.get_state
    rw [h]

/-- A handle with a populated cache over the Completed store, to exhibit
that `get_state` ignores the cache. -/
def futC6 : PrefectFuture :=
  PrefectFuture.mk_init 7 storeCompleted backendNever 6 (some ⟨.failed, none⟩)

/-- Witness for C6: with a populated (and disagreeing) cache, `get_state`
still reports the store's status, with exactly one store query. -/
theorem C6_witness :
    ((futC6.get_state).1 = .ok ⟨.completed, some 42⟩) ∧
    ((futC6.get_state).2 = [.storeQuery 7]) ∧
    (({ futC6 with final_state := none } : PrefectFuture).get_state =
      futC6.get_state) :=
  ⟨(C6_get_state_contract futC6).2.2.2.2 ⟨⟨.completed, some 42⟩⟩ rfl,
    (C6_get_state_contract futC6).2.2.1,
    (C6_get_state_contract futC6).1 none⟩

/-- C10: any sequence of `wait`/`get_state` calls leaves `run_id`, the
status-store client reference, the execution-backend reference, the
`_exception` slot and the object identity at their starting values, and
either leaves `_final_state` unchanged or started from an empty
`_final_state` (the slot is only ever written when it was empty). -/
theorem C10_frame_preservation (f : PrefectFuture) (ops : List FutOp) :
    (runOps f ops).run_id = f.run_id ∧
    (runOps f ops).client = f.client ∧
    (runOps f ops).executor = f.executor ∧
    (runOps f ops).exception = f.exception ∧
    (runOps f ops).objId = f.objId ∧
    ((runOps f ops).final_state = f.final_state ∨ f.final_state = none) := by
  induction ops generalizing f with
  | nil => exact ⟨rfl, rfl, rfl, rfl, rfl, Or.inl rfl⟩
  | cons op ops ih =>
    cases op with
    | getState => simpa [runOps] using ih f
    | wait t =>
      have hs := wait_step_frame f t
      have hi := ih (f.wait t).2.1
      simp only [runOps]
      refine ⟨?_, ?_, ?_, ?_, ?_, ?_⟩
      · rw [hi.1, hs.1.1]
      · rw [hi.2.1, hs.1.2.1]
      · rw [hi.2.2.1, hs.1.2.2.1]
      · rw [hi.2.2.2.1, hs.1.2.2.2.1]
      · rw [hi.2.2.2.2.1, hs.1.2.2.2.2]
      · rcases hi.2.2.2.2.2 with h1 | h1
        · rcases hs.2 with h2 | h2
          · exact Or.inl (h1.trans h2)
          · exact Or.inr h2
        · rcases hs.2 with h2 | h2
          · exact Or.inr (h2.symm.trans h1)
          · exact Or.inr h2

/-- C7: against any structure that embeds, among future-free siblings, a
handle whose `wait` resolves to a Failed status carrying a payload,
value-resolution raises the error carrying that failure's payload, while
status-resolution returns normally with the Failed status value at that
handle's position and every other position unchanged. -/
theorem C7_failed_data_vs_states (f : PrefectFuture) (s : State) (p : Nat)
    (pre post : List PyVal)
    (hw : (f.wait none).1 = .ok (some s))
    (hf : s.stateType = .failed) (hd : s.data = some p)
    (hpre : futureFreeList pre = true) (hpost : futureFreeList post = true) :
    resolve_futures_to_data (.list (pre ++ .future f :: post)) =
      .error (.upstreamFailure (some p)) ∧
    resolve_futures_to_states (.list (pre ++ .future f :: post)) =
      .ok (.list (pre ++ .pyState s :: post)) := by
  have hg : get_result (some s) = .error (.upstreamFailure (some p)) := by
    obtain ⟨ty, d⟩ := s
    dsimp only at hf hd
    subst hf
    subst hd
    rfl
  have hdv : dataVisitFn f = .error (.upstreamFailure (some p)) := by
    unfold dataVisitFn
    rw [hw]
    dsimp only
    simp [hg]
  have hsv : statesVisitFn f = .ok (.pyState s) := by
    unfold statesVisitFn
    rw [hw]
  constructor
  · have hlist : visitList dataVisitFn (.future f :: post) =
        .error (.upstreamFailure (some p)) := by
      simp [visitList, visit_collection, hdv]
    have happ := visitList_append_futureFree_error dataVisitFn pre
      (.future f :: post) (.upstreamFailure (some p)) hpre hlist
    simp [resolve_futures_to_data, visit_collection, happ]
  · have hlist : visitList statesVisitFn (.future f :: post) =
        .ok (.pyState s :: post) := by
      simp [visitList, visit_collection, hsv,
        visitList_futureFree statesVisitFn post hpost]
    have happ := visitList_append_futureFree_ok statesVisitFn pre
      (.future f :: post) (.pyState s :: post) hpre hlist
    simp [resolve_futures_to_states, visit_collection, happ]

/-- An empty-cache handle whose run the store reports Failed with payload
13, so its `wait` resolves to that Failed status. -/
def futC7 : PrefectFuture := PrefectFuture.mk_init 7 storeFailed backendNever 7

/-- Witness for C7 at a concrete three-element sequence around the failing
handle. -/
theorem C7_witness :
    resolve_futures_to_data (.list [.scalar 1, .future futC7, .opaqueObj 2]) =
      .error (.upstreamFailure (some 13)) ∧
    resolve_futures_to_states
        (.list [.scalar 1, .future futC7, .opaqueObj 2]) =
      .ok (.list [.scalar 1, .pyState ⟨.failed, some 13⟩, .opaqueObj 2]) :=
  C7_failed_data_vs_states futC7 ⟨.failed, some 13⟩ 13 [.scalar 1]
    [.opaqueObj 2] rfl rfl rfl rfl rfl

/-- C8: on a structure containing no future at any depth, both resolvers
return the input unchanged and raise nothing; in particular a value of an
unrecognized (non-container, non-record, non-handle) type passes through
unmodified. -/
theorem C8_identity_on_handle_free (v : PyVal) (h : futureFree v = true) :
    resolve_futures_to_data v = .ok v ∧
    resolve_futures_to_states v = .ok v ∧
    (∀ n : Nat, resolve_futures_to_data (.opaqueObj n) = .ok (.opaqueObj n)) ∧
    (∀ n : Nat,
      resolve_futures_to_states (.opaqueObj n) = .ok (.opaqueObj n)) :=
  ⟨visit_collection_futureFree dataVisitFn v h,
    visit_collection_futureFree statesVisitFn v h,
    fun _ => rfl, fun _ => rfl⟩

/-- A handle-free nested structure mixing containers, a record, a set and
an unrecognized value. -/
def valC8 : PyVal :=
  .dict [(1, .list [.scalar 2, .opaqueObj 3]),
         (4, .record 0 [(5, .pySet [.scalar 6])])]

/-- Witness for C8 at the concrete handle-free structure. -/
theorem C8_witness :
    resolve_futures_to_data valC8 = .ok valC8 ∧
    resolve_futures_to_states valC8 = .ok valC8 ∧
    resolve_futures_to_data (.opaqueObj 11) = .ok (.opaqueObj 11) ∧
    resolve_futures_to_states (.opaqueObj 11) = .ok (.opaqueObj 11) :=
  ⟨(C8_identity_on_handle_free valC8 rfl).1,
    (C8_identity_on_handle_free valC8 rfl).2.1,
    (C8_identity_on_handle_free valC8 rfl).2.2.1 11,
    (C8_identity_on_handle_free valC8 rfl).2.2.2 11⟩

/-- C9: whenever value-resolution succeeds, its output is `Resolved`-related
to the input: same concrete container/record kind at every level, same
lengths, keys and key order, every non-future position unchanged in place,
and exactly the future positions replaced by the payload their awaited
state resolves to. -/
theorem C9_shape_preserving (v out : PyVal)
    (h : resolve_futures_to_data v = .ok out) : Resolved v out :=
  visitData_resolved v out h

/-- An empty-cache handle over the Completed-with-42 store, for the C9
witness structure. -/
def futC9 : PrefectFuture := PrefectFuture.mk_init 7 storeCompleted backendNever 8

/-- A nested structure embedding two handles, one inside a record inside a
sequence inside a mapping. -/
def valC9 : PyVal :=
  .dict [(1, .list [.scalar 5, .future futC9,
    .record 0 [(2, .future futC9), (3, .opaqueObj 4)]])]

/-- Witness for C9: the concrete resolution keeps the shape and replaces
exactly the two handle positions by the resolved payload 42. -/
theorem C9_witness :
    Resolved valC9
      (.dict [(1, .list [.scalar 5, .scalar 42,
        .record 0 [(2, .scalar 42), (3, .opaqueObj 4)]])]) :=
  C9_shape_preserving valC9 _ rfl
